import Mathlib

/-
Shallow embedding of `src/ocp_resources/user_defined_network.py` from
sbahar619/openshift-python-wrapper.

The rendered Kubernetes document is modelled as a JSON-like value; Python
dict mutation is modelled by explicit functional update of association
lists kept in insertion order, matching Python dict semantics (assignment
replaces in place, otherwise appends; `setdefault` inserts a default when
the key is absent).
-/

/-- A JSON-like value, the shape of the rendered resource document. -/
inductive Value where
  | str : String → Value
  | int : Int → Value
  | obj : List (String × Value) → Value
  | arr : List Value → Value

/-- Python `d[k] = v` on an insertion-ordered dict: replace in place if the
key exists, otherwise append at the end. -/
def dictInsert : List (String × Value) → String → Value → List (String × Value)
  | [], k, v => [(k, v)]
  | (k', v') :: rest, k, v =>
    if k' == k then (k', v) :: rest else (k', v') :: dictInsert rest k v

/-- Python `d.setdefault(k, dflt)` followed by a mutation `f` of the value
stored at `k` (the mutation acts on the existing value when the key is
present, on the default otherwise). -/
def setdefaultModify : List (String × Value) → String → Value → (Value → Value) → List (String × Value)
  | [], k, dflt, f => [(k, f dflt)]
  | (k', v) :: rest, k, dflt, f =>
    if k' == k then (k', f v) :: rest else (k', v) :: setdefaultModify rest k dflt f

/-- `d[k] = v` only when the attribute value is set; mirrors the
`if value is not None` guard of the attribute-copy loops. -/
def insertIfPresent (d : List (String × Value)) (k : String) (v : Option Value) : List (String × Value) :=
  match v with
  | some v => dictInsert d k v
  | none => d

/-- Key lookup in an insertion-ordered dict. -/
def lookupKey : List (String × Value) → String → Option Value
  | [], _ => none
  | (k', v) :: rest, k => if k' == k then some v else lookupKey rest k

/-- Key presence in an insertion-ordered dict. -/
def hasKey (d : List (String × Value)) (k : String) : Bool :=
  d.any (fun kv => kv.1 == k)

/-- The underlying field list of an object value (objects are the only
values the code indexes into). -/
def Value.asObj : Value → List (String × Value)
  | .obj l => l
  | _ => []

/-- The underlying element list of an array value. -/
def Value.asArr : Value → List Value
  | .arr l => l
  | _ => []

/-- A status condition record observed from the remote system. Any subset
of the four fields may be absent (`none`), matching a Python dict that may
lack keys. -/
structure StatusCondition where
  type : Option String
  status : Option String
  reason : Option String
  message : Option String
  deriving DecidableEq

/-- A Python runtime error surfaced by dict indexing. -/
inductive PyErr where
  | keyError : String → PyErr
  deriving DecidableEq

/-- Python `condition[k]`: the value when the key is present, `KeyError`
otherwise. -/
def condGet (v : Option String) (k : String) : Except PyErr String :=
  match v with
  | some s => Except.ok s
  | none => Except.error (.keyError k)

/-- `UserDefinedNetwork.Status.Type.NETWORK_READY`. -/
def UserDefinedNetwork.Status.Type.NETWORK_READY : String := "NetworkReady"

/-- `UserDefinedNetwork.Status.Reason.NETWORK_ATTACHMENT_DEFINITION_READY`. -/
def UserDefinedNetwork.Status.Reason.NETWORK_ATTACHMENT_DEFINITION_READY : String :=
  "NetworkAttachmentDefinitionReady"

/-- `UserDefinedNetwork.Status.Reason.SYNC_ERROR`. -/
def UserDefinedNetwork.Status.Reason.SYNC_ERROR : String := "SyncError"

/-- Modelled from the spec: `NamespacedResource.Condition.Status.TRUE` lives
in `ocp_resources/resource.py`, which is not part of the sources; section 3
of the spec fixes the status vocabulary to the strings "True" and "False". -/
def Condition.Status.TRUE : String := "True"

/-- Modelled from the spec: `NamespacedResource.Condition.Status.FALSE`,
see `Condition.Status.TRUE`. -/
def Condition.Status.FALSE : String := "False"

/-- `UserDefinedNetwork.is_ready_condition`. Python `and` short-circuits,
so the `reason` key is always read, `status` only when the reason matched,
and `type` only when reason and status matched; a missing key raises. -/
def UserDefinedNetwork.is_ready_condition (condition : StatusCondition) : Except PyErr Bool :=
  match condGet condition.reason "reason" with
  | .error e => .error e
  | .ok r =>
    if r == UserDefinedNetwork.Status.Reason.NETWORK_ATTACHMENT_DEFINITION_READY then
      match condGet condition.status "status" with
      | .error e => .error e
      | .ok s =>
        if s == Condition.Status.TRUE then
          match condGet condition.type "type" with
          | .error e => .error e
          | .ok t => .ok (t == UserDefinedNetwork.Status.Type.NETWORK_READY)
        else .ok false
    else .ok false

/-- `UserDefinedNetwork.is_sync_error_condition`, with the same
short-circuit evaluation order (`reason`, then `status`, then `type`). -/
def UserDefinedNetwork.is_sync_error_condition (condition : StatusCondition) : Except PyErr Bool :=
  match condGet condition.reason "reason" with
  | .error e => .error e
  | .ok r =>
    if r == UserDefinedNetwork.Status.Reason.SYNC_ERROR then
      match condGet condition.status "status" with
      | .error e => .error e
      | .ok s =>
        if s == Condition.Status.FALSE then
          match condGet condition.type "type" with
          | .error e => .error e
          | .ok t => .ok (t == UserDefinedNetwork.Status.Type.NETWORK_READY)
        else .ok false
    else .ok false

example : UserDefinedNetwork.is_ready_condition
    ⟨some "NetworkReady", some "True", some "NetworkAttachmentDefinitionReady", some "ok"⟩ =
    Except.ok true := rfl

example : UserDefinedNetwork.is_ready_condition ⟨none, none, none, none⟩ =
    Except.error (.keyError "reason") := rfl

/-- Outcome of one run of the status wait protocol. `timeoutExpired` is the
`TimeoutExpiredError` raised by the sampler when the wait budget elapses;
`waitFailed` is `WaitForStatusConditionFailed` carrying its message;
`keyErr` is an uncaught `KeyError` from reading the matched condition's
`message` key while formatting the failure message. -/
inductive WaitOutcome where
  | success : StatusCondition → WaitOutcome
  | waitFailed : String → WaitOutcome
  | keyErr : WaitOutcome
  | timeoutExpired : WaitOutcome
  deriving DecidableEq

/-- `UserDefinedNetwork.wait_for_status_condition`, driven by the sequence
of condition snapshots the sampler yields within the wait budget.

Modelled from the spec: `TimeoutSampler` comes from the external
`timeout_sampler` package; per section 4.3 it yields one snapshot per poll
until the elapsed time exceeds the wait timeout and then raises the
timeout error, so a run is represented by the finite list of snapshots
observed before the budget elapses, and an exhausted list is the timeout.
A `None` or empty `not_wait_condition_fns` argument is the empty list
(both are falsy in the `if not_wait_condition_fns` guard). -/
def UserDefinedNetwork.wait_for_status_condition (name : String)
    (wait_condition_fns not_wait_condition_fns : List (StatusCondition → Bool)) :
    List (List StatusCondition) → WaitOutcome
  | [] => .timeoutExpired
  | sample :: rest =>
    match sample.find? (fun condition => wait_condition_fns.any (fun wait_fn => wait_fn condition)) with
    | some condition => .success condition
    | none =>
      if not_wait_condition_fns.isEmpty then
        UserDefinedNetwork.wait_for_status_condition name wait_condition_fns not_wait_condition_fns rest
      else
        match sample.find? (fun condition => not_wait_condition_fns.any (fun not_wait_fn => not_wait_fn condition)) with
        | some condition =>
          match condition.message with
          | some m =>
            .waitFailed ("Failed to wait for the intended status for UDN " ++ name ++
              ". Condition message: " ++ m)
          | none => .keyErr
        | none =>
          UserDefinedNetwork.wait_for_status_condition name wait_condition_fns not_wait_condition_fns rest

/-- Modelled from the spec: `NamespacedResource.to_dict` lives in
`ocp_resources/resource.py`, which is not part of the sources. Section 4.1
gives the rendered document the shape of a single `spec` mapping and states
that a resource loaded from a manifest passes the loaded document through
unchanged, while a typed build synthesises the document afresh (the
incoming value of `res` is discarded and rebuilt). -/
def NamespacedResource.to_dict (yaml_file : Option (List (String × Value)))
    (_res : List (String × Value)) : List (String × Value) :=
  match yaml_file with
  | some manifest => manifest
  | none => []

/-- Typed constructor arguments of `UserDefinedNetwork.__init__`:
identity, the topology string, and the three raw already-shaped topology
sub-documents. `yaml_file` is the optional manifest source. -/
structure UserDefinedNetworkFields where
  name : String
  namespace' : String
  topology : Option String
  layer2 : Option Value
  layer3 : Option Value
  local_net : Option Value
  yaml_file : Option (List (String × Value))

/-- `UserDefinedNetwork.to_dict`: after the base builder, when not loaded
from a manifest, `res` gets a fresh empty `spec` into which each non-None
attribute of the ordered mapping (topology, layer2, layer3, localNet) is
copied. -/
def UserDefinedNetwork.to_dict (u : UserDefinedNetworkFields)
    (res : List (String × Value)) : List (String × Value) :=
  let res := NamespacedResource.to_dict u.yaml_file res
  match u.yaml_file with
  | some _ => res
  | none =>
    let spec : List (String × Value) := []
    let spec := insertIfPresent spec "topology" (u.topology.map Value.str)
    let spec := insertIfPresent spec "layer2" u.layer2
    let spec := insertIfPresent spec "layer3" u.layer3
    let spec := insertIfPresent spec "localNet" u.local_net
    dictInsert res "spec" (.obj spec)

/-- `TopologyType.LAYER2`. -/
def TopologyType.LAYER2 : String := "Layer2"

/-- `TopologyType.LAYER3`. -/
def TopologyType.LAYER3 : String := "Layer3"

/-- `TopologyType.LOCALNET`. -/
def TopologyType.LOCALNET : String := "LocalNet"

/-- Typed constructor arguments of `Layer2UserDefinedNetwork.__init__`
(the base topology is fixed to `Layer2` and no raw sub-document is set). -/
structure Layer2Fields where
  name : String
  namespace' : String
  role : Option String
  mtu : Option Int
  subnets : Option (List String)
  join_subnets : Option String
  ipam_lifecycle : Option String
  yaml_file : Option (List (String × Value))

/-- The base-class field view of a `Layer2UserDefinedNetwork` instance:
`super().__init__` receives `topology=TopologyType.LAYER2` and leaves the
raw sub-documents unset. -/
def Layer2Fields.toBase (f : Layer2Fields) : UserDefinedNetworkFields :=
  ⟨f.name, f.namespace', some TopologyType.LAYER2, none, none, none, f.yaml_file⟩

/-- `Layer2UserDefinedNetwork.to_dict`: after the base builder, when not
loaded from a manifest, `spec.layer2` is created by `setdefault` and each
non-None attribute of the ordered mapping (role, mtu, subnets,
joinSubnets, ipamLifecycle) is copied into it. -/
def Layer2UserDefinedNetwork.to_dict (f : Layer2Fields)
    (res : List (String × Value)) : List (String × Value) :=
  let res := UserDefinedNetwork.to_dict f.toBase res
  match f.yaml_file with
  | some _ => res
  | none =>
    setdefaultModify res "spec" (.obj []) (fun specV =>
      .obj (setdefaultModify specV.asObj "layer2" (.obj []) (fun l2V =>
        let l2 := l2V.asObj
        let l2 := insertIfPresent l2 "role" (f.role.map Value.str)
        let l2 := insertIfPresent l2 "mtu" (f.mtu.map Value.int)
        let l2 := insertIfPresent l2 "subnets" (f.subnets.map (fun l => .arr (l.map Value.str)))
        let l2 := insertIfPresent l2 "joinSubnets" (f.join_subnets.map Value.str)
        let l2 := insertIfPresent l2 "ipamLifecycle" (f.ipam_lifecycle.map Value.str)
        .obj l2)))

/-- `Layer3Subnets`: one (cidr, host_subnet) pair; either component may be
unset. -/
structure Layer3Subnets where
  cidr : Option String
  host_subnet : Option Int

/-- The rendered form of one `Layer3Subnets` entry: the dict comprehension
over the ordered pairs (cidr, hostSubnet) keeping only set values. -/
def layer3SubnetDict (subnet : Layer3Subnets) : Value :=
  .obj (insertIfPresent (insertIfPresent [] "cidr" (subnet.cidr.map Value.str))
    "hostSubnet" (subnet.host_subnet.map Value.int))

/-- Typed constructor arguments of `Layer3UserDefinedNetwork.__init__`
(the base topology is fixed to `Layer3` and no raw sub-document is set). -/
structure Layer3Fields where
  name : String
  namespace' : String
  role : Option String
  mtu : Option Int
  subnets : Option (List Layer3Subnets)
  join_subnets : Option String
  yaml_file : Option (List (String × Value))

/-- The base-class field view of a `Layer3UserDefinedNetwork` instance. -/
def Layer3Fields.toBase (f : Layer3Fields) : UserDefinedNetworkFields :=
  ⟨f.name, f.namespace', some TopologyType.LAYER3, none, none, none, f.yaml_file⟩

/-- `Layer3UserDefinedNetwork.to_dict`: after the base builder, when not
loaded from a manifest, `spec.layer3` is created by `setdefault`, the
non-None attributes (role, mtu, joinSubnets) are copied, and when the
subnet sequence is set a `subnets` list is created by `setdefault` and one
rendered pair is appended per entry. -/
def Layer3UserDefinedNetwork.to_dict (f : Layer3Fields)
    (res : List (String × Value)) : List (String × Value) :=
  let res := UserDefinedNetwork.to_dict f.toBase res
  match f.yaml_file with
  | some _ => res
  | none =>
    setdefaultModify res "spec" (.obj []) (fun specV =>
      .obj (setdefaultModify specV.asObj "layer3" (.obj []) (fun l3V =>
        let l3 := l3V.asObj
        let l3 := insertIfPresent l3 "role" (f.role.map Value.str)
        let l3 := insertIfPresent l3 "mtu" (f.mtu.map Value.int)
        let l3 := insertIfPresent l3 "joinSubnets" (f.join_subnets.map Value.str)
        match f.subnets with
        | none => .obj l3
        | some subnets =>
          .obj (setdefaultModify l3 "subnets" (.arr []) (fun subnetsV =>
            .arr (subnetsV.asArr ++ subnets.map layer3SubnetDict))))))

/-- Typed constructor arguments of `LocalNetUserDefinedNetwork.__init__`
(the base topology is fixed to `LocalNet` and no raw sub-document is
set). -/
structure LocalNetFields where
  name : String
  namespace' : String
  role : Option String
  mtu : Option Int
  subnets : Option (List String)
  exclude_subnets : Option (List String)
  ipam_lifecycle : Option String
  yaml_file : Option (List (String × Value))

/-- The base-class field view of a `LocalNetUserDefinedNetwork` instance. -/
def LocalNetFields.toBase (f : LocalNetFields) : UserDefinedNetworkFields :=
  ⟨f.name, f.namespace', some TopologyType.LOCALNET, none, none, none, f.yaml_file⟩

/-- `LocalNetUserDefinedNetwork.to_dict`: after the base builder, when not
loaded from a manifest, `spec.localNet` is created by `setdefault` and each
non-None attribute of the ordered mapping (role, mtu, subnets,
excludeSubnets, ipamLifecycle) is copied into it. -/
def LocalNetUserDefinedNetwork.to_dict (f : LocalNetFields)
    (res : List (String × Value)) : List (String × Value) :=
  let res := UserDefinedNetwork.to_dict f.toBase res
  match f.yaml_file with
  | some _ => res
  | none =>
    setdefaultModify res "spec" (.obj []) (fun specV =>
      .obj (setdefaultModify specV.asObj "localNet" (.obj []) (fun lnV =>
        let ln := lnV.asObj
        let ln := insertIfPresent ln "role" (f.role.map Value.str)
        let ln := insertIfPresent ln "mtu" (f.mtu.map Value.int)
        let ln := insertIfPresent ln "subnets" (f.subnets.map (fun l => .arr (l.map Value.str)))
        let ln := insertIfPresent ln "excludeSubnets" (f.exclude_subnets.map (fun l => .arr (l.map Value.str)))
        let ln := insertIfPresent ln "ipamLifecycle" (f.ipam_lifecycle.map Value.str)
        .obj ln)))

/-- The `spec` mapping of a rendered document. -/
def specObj (res : List (String × Value)) : List (String × Value) :=
  match lookupKey res "spec" with
  | some v => v.asObj
  | none => []

/-- The mapping stored under a topology-variant key of the `spec`
mapping. -/
def variantObj (res : List (String × Value)) (k : String) : List (String × Value) :=
  match lookupKey (specObj res) k with
  | some v => v.asObj
  | none => []

/-- How many of the three topology-variant keys the `spec` mapping
carries. -/
def variantKeyCount (res : List (String × Value)) : Nat :=
  (if hasKey (specObj res) "layer2" then 1 else 0) +
    (if hasKey (specObj res) "layer3" then 1 else 0) +
    (if hasKey (specObj res) "localNet" then 1 else 0)

lemma ready_ok_true_iff (c : StatusCondition) :
    UserDefinedNetwork.is_ready_condition c = Except.ok true ↔
      c.reason = some "NetworkAttachmentDefinitionReady" ∧
        c.status = some "True" ∧ c.type = some "NetworkReady" := by
  obtain ⟨t, s, r, m⟩ := c
  simp only [UserDefinedNetwork.is_ready_condition, condGet,
    UserDefinedNetwork.Status.Reason.NETWORK_ATTACHMENT_DEFINITION_READY,
    Condition.Status.TRUE, UserDefinedNetwork.Status.Type.NETWORK_READY]
  cases r with
  | none => simp
  | some rv =>
    by_cases hr : rv = "NetworkAttachmentDefinitionReady"
    · subst hr
      cases s with
      | none => simp
      | some sv =>
        by_cases hs : sv = "True"
        · subst hs
          cases t with
          | none => simp
          | some tv => by_cases ht : tv = "NetworkReady" <;> simp [ht]
        · simp [hs]
    · simp [hr]

lemma sync_ok_true_iff (c : StatusCondition) :
    UserDefinedNetwork.is_sync_error_condition c = Except.ok true ↔
      c.reason = some "SyncError" ∧ c.status = some "False" ∧ c.type = some "NetworkReady" := by
  obtain ⟨t, s, r, m⟩ := c
  simp only [UserDefinedNetwork.is_sync_error_condition, condGet,
    UserDefinedNetwork.Status.Reason.SYNC_ERROR,
    Condition.Status.FALSE, UserDefinedNetwork.Status.Type.NETWORK_READY]
  cases r with
  | none => simp
  | some rv =>
    by_cases hr : rv = "SyncError"
    · subst hr
      cases s with
      | none => simp
      | some sv =>
        by_cases hs : sv = "False"
        · subst hs
          cases t with
          | none => simp
          | some tv => by_cases ht : tv = "NetworkReady" <;> simp [ht]
        · simp [hs]
    · simp [hr]

lemma ready_total_of_present (c : StatusCondition) (hr : c.reason.isSome = true)
    (hs : c.status.isSome = true) (ht : c.type.isSome = true) :
    ∃ b, UserDefinedNetwork.is_ready_condition c = Except.ok b := by
  obtain ⟨t, s, r, m⟩ := c
  cases r with
  | none => simp at hr
  | some rv =>
    cases s with
    | none => simp at hs
    | some sv =>
      cases t with
      | none => simp at ht
      | some tv =>
        simp only [UserDefinedNetwork.is_ready_condition, condGet]
        split <;> try split
        all_goals simp

lemma sync_total_of_present (c : StatusCondition) (hr : c.reason.isSome = true)
    (hs : c.status.isSome = true) (ht : c.type.isSome = true) :
    ∃ b, UserDefinedNetwork.is_sync_error_condition c = Except.ok b := by
  obtain ⟨t, s, r, m⟩ := c
  cases r with
  | none => simp at hr
  | some rv =>
    cases s with
    | none => simp at hs
    | some sv =>
      cases t with
      | none => simp at ht
      | some tv =>
        simp only [UserDefinedNetwork.is_sync_error_condition, condGet]
        split <;> try split
        all_goals simp

lemma wait_step_success (name : String) (wfns nfns : List (StatusCondition → Bool))
    (s : List StatusCondition) (rest : List (List StatusCondition)) (c : StatusCondition)
    (hw : s.find? (fun condition => wfns.any (fun wait_fn => wait_fn condition)) = some c) :
    UserDefinedNetwork.wait_for_status_condition name wfns nfns (s :: rest) = .success c := by
  simp only [UserDefinedNetwork.wait_for_status_condition, hw]

lemma wait_step_fail (name : String) (wfns nfns : List (StatusCondition → Bool))
    (s : List StatusCondition) (rest : List (List StatusCondition)) (c : StatusCondition)
    (m : String)
    (hw : s.find? (fun condition => wfns.any (fun wait_fn => wait_fn condition)) = none)
    (hn : nfns.isEmpty = false)
    (hf : s.find? (fun condition => nfns.any (fun not_wait_fn => not_wait_fn condition)) = some c)
    (hm : c.message = some m) :
    UserDefinedNetwork.wait_for_status_condition name wfns nfns (s :: rest) =
      .waitFailed ("Failed to wait for the intended status for UDN " ++ name ++
        ". Condition message: " ++ m) := by
  simp only [UserDefinedNetwork.wait_for_status_condition, hw, hn, hf, hm, Bool.false_eq_true,
    if_false]

lemma wait_step_cont (name : String) (wfns nfns : List (StatusCondition → Bool))
    (s : List StatusCondition) (rest : List (List StatusCondition))
    (hw : s.find? (fun condition => wfns.any (fun wait_fn => wait_fn condition)) = none)
    (hf : s.find? (fun condition => nfns.any (fun not_wait_fn => not_wait_fn condition)) = none) :
    UserDefinedNetwork.wait_for_status_condition name wfns nfns (s :: rest) =
      UserDefinedNetwork.wait_for_status_condition name wfns nfns rest := by
  simp only [UserDefinedNetwork.wait_for_status_condition, hw, hf]
  cases nfns.isEmpty <;> simp

/-- The ready condition of the spec's concrete classifier scenario. -/
def readyCond : StatusCondition :=
  ⟨some "NetworkReady", some "True", some "NetworkAttachmentDefinitionReady", some "ok"⟩

/-- The sync-error condition of the spec's concrete classifier scenario. -/
def syncErrorCond : StatusCondition :=
  ⟨some "NetworkReady", some "False", some "SyncError", some "bad subnet"⟩

/-- A condition matching neither classifier; used to exercise the polling
path. -/
def pendingCond : StatusCondition :=
  ⟨some "NetworkReady", some "Unknown", some "Pending", some "still waiting"⟩

/-- A sample success predicate for engine runs. -/
def isTrueStatus : StatusCondition → Bool := fun c => c.status == some "True"

/-- A sample failure predicate for engine runs. -/
def isFalseStatus : StatusCondition → Bool := fun c => c.status == some "False"

/-- C1: within one polled snapshot the success scan over all conditions
runs before the failure scan over any condition; a snapshot containing
both a condition matched by some wait predicate and a condition matched by
some not-wait predicate makes the engine return a wait-matched condition
of that snapshot, so it does not raise the wait-failure error there. -/
theorem wait_success_wins_over_failure (name : String)
    (wfns nfns : List (StatusCondition → Bool))
    (s : List StatusCondition) (rest : List (List StatusCondition))
    (hsucc : ∃ c ∈ s, wfns.any (fun wait_fn => wait_fn c) = true)
    (hfail : ∃ c ∈ s, nfns.any (fun not_wait_fn => not_wait_fn c) = true) :
    ∃ c ∈ s, wfns.any (fun wait_fn => wait_fn c) = true ∧
      UserDefinedNetwork.wait_for_status_condition name wfns nfns (s :: rest) =
        WaitOutcome.success c := by
  have hsome : (s.find? (fun condition => wfns.any (fun wait_fn => wait_fn condition))).isSome := by
    rw [List.find?_isSome]
    exact hsucc
  obtain ⟨c, hc⟩ := Option.isSome_iff_exists.mp hsome
  have hp := List.find?_some hc
  exact ⟨c, List.mem_of_find?_eq_some hc, hp,
    wait_step_success name wfns nfns s rest c hc⟩

/-- Witness for C1: a snapshot listing a failure-matching condition before
a success-matching one still yields the success outcome. -/
theorem wait_success_wins_over_failure_witness :
    ∃ c ∈ [syncErrorCond, readyCond],
      ([isTrueStatus].any (fun wait_fn => wait_fn c)) = true ∧
      UserDefinedNetwork.wait_for_status_condition "udn-a" [isTrueStatus] [isFalseStatus]
        ([syncErrorCond, readyCond] :: []) =
        WaitOutcome.success c :=
  wait_success_wins_over_failure "udn-a" [isTrueStatus] [isFalseStatus]
    [syncErrorCond, readyCond] []
    ⟨readyCond, by simp, rfl⟩
    ⟨syncErrorCond, by simp, rfl⟩

/-- C2: a snapshot with a condition matched by some not-wait predicate and
no condition matched by any wait predicate, together with a non-empty
not-wait predicate list, makes the engine raise
`WaitForStatusConditionFailed`; its message embeds the resource's name and
the matched condition's `message` field, and the outcome is the same for
every continuation `rest` of the poll sequence, so the error is not
retried. -/
theorem wait_failure_raises_wait_failed (name : String)
    (wfns nfns : List (StatusCondition → Bool))
    (s : List StatusCondition) (rest : List (List StatusCondition))
    (c : StatusCondition) (m : String)
    (hn : nfns.isEmpty = false)
    (hnosucc : ∀ c' ∈ s, wfns.any (fun wait_fn => wait_fn c') = false)
    (hf : s.find? (fun condition => nfns.any (fun not_wait_fn => not_wait_fn condition)) = some c)
    (hm : c.message = some m) :
    UserDefinedNetwork.wait_for_status_condition name wfns nfns (s :: rest) =
      WaitOutcome.waitFailed ("Failed to wait for the intended status for UDN " ++ name ++
        ". Condition message: " ++ m) ∧
    (∃ x y, ("Failed to wait for the intended status for UDN " ++ name ++
        ". Condition message: " ++ m) = x ++ name ++ y) ∧
    (∃ x y, ("Failed to wait for the intended status for UDN " ++ name ++
        ". Condition message: " ++ m) = x ++ m ++ y) := by
  have hw : s.find? (fun condition => wfns.any (fun wait_fn => wait_fn condition)) = none :=
    List.find?_eq_none.mpr (fun c' hc' => by simp [hnosucc c' hc'])
  refine ⟨wait_step_fail name wfns nfns s rest c m hw hn hf hm, ?_, ?_⟩
  · exact ⟨"Failed to wait for the intended status for UDN ", ". Condition message: " ++ m,
      (String.append_assoc _ _ _)⟩
  · exact ⟨"Failed to wait for the intended status for UDN " ++ name ++ ". Condition message: ",
      "", (String.append_empty _).symm⟩

/-- Witness for C2: the spec's concrete sync-error snapshot raises the
wait-failure error whose message carries the name and "bad subnet". -/
theorem wait_failure_raises_wait_failed_witness :
    UserDefinedNetwork.wait_for_status_condition "udn-a" [isTrueStatus] [isFalseStatus]
      ([syncErrorCond] :: []) =
      WaitOutcome.waitFailed ("Failed to wait for the intended status for UDN " ++ "udn-a" ++
        ". Condition message: " ++ "bad subnet") ∧
    (∃ x y, ("Failed to wait for the intended status for UDN " ++ "udn-a" ++
        ". Condition message: " ++ "bad subnet") = x ++ "udn-a" ++ y) ∧
    (∃ x y, ("Failed to wait for the intended status for UDN " ++ "udn-a" ++
        ". Condition message: " ++ "bad subnet") = x ++ "bad subnet" ++ y) :=
  wait_failure_raises_wait_failed "udn-a" [isTrueStatus] [isFalseStatus] [syncErrorCond] []
    syncErrorCond "bad subnet" rfl (by decide) rfl rfl

/-- C3: when no condition of any polled snapshot matches a wait or a
not-wait predicate, the run ends in the timeout error once the wait budget
elapses (the sampler yields no further snapshot), an outcome distinct from
the wait-failure error, and the engine never returns a condition. -/
theorem wait_times_out (name : String) (wfns nfns : List (StatusCondition → Bool))
    (snaps : List (List StatusCondition))
    (h : ∀ s ∈ snaps, ∀ c ∈ s, wfns.any (fun wait_fn => wait_fn c) = false ∧
        nfns.any (fun not_wait_fn => not_wait_fn c) = false) :
    UserDefinedNetwork.wait_for_status_condition name wfns nfns snaps =
      WaitOutcome.timeoutExpired ∧
    ∀ m : String, WaitOutcome.timeoutExpired ≠ WaitOutcome.waitFailed m := by
  refine ⟨?_, fun m h' => WaitOutcome.noConfusion h'⟩
  induction snaps with
  | nil => rfl
  | cons s rest ih =>
    have hw : s.find? (fun condition => wfns.any (fun wait_fn => wait_fn condition)) = none :=
      List.find?_eq_none.mpr
        (fun c hc => by simp [(h s (List.mem_cons_self s rest) c hc).1])
    have hf : s.find? (fun condition => nfns.any (fun not_wait_fn => not_wait_fn condition)) = none :=
      List.find?_eq_none.mpr
        (fun c hc => by simp [(h s (List.mem_cons_self s rest) c hc).2])
    rw [wait_step_cont name wfns nfns s rest hw hf]
    exact ih (fun s' hs' c hc => h s' (List.mem_cons_of_mem s hs') c hc)

/-- Witness for C3: two polls of a pending-only snapshot end in the
timeout error. -/
theorem wait_times_out_witness :
    UserDefinedNetwork.wait_for_status_condition "udn-a" [isTrueStatus] [isFalseStatus]
      [[pendingCond], [pendingCond]] = WaitOutcome.timeoutExpired ∧
    ∀ m : String, WaitOutcome.timeoutExpired ≠ WaitOutcome.waitFailed m :=
  wait_times_out "udn-a" [isTrueStatus] [isFalseStatus] [[pendingCond], [pendingCond]]
    (by decide)

/-- C6: `is_ready_condition` returns true exactly of records whose type is
"NetworkReady", whose status is "True" and whose reason is
"NetworkAttachmentDefinitionReady"; in particular the spec's concrete
ready record classifies as ready. -/
theorem is_ready_condition_characterisation :
    (∀ c : StatusCondition,
      UserDefinedNetwork.is_ready_condition c = Except.ok true ↔
        c.type = some "NetworkReady" ∧ c.status = some "True" ∧
          c.reason = some "NetworkAttachmentDefinitionReady") ∧
    UserDefinedNetwork.is_ready_condition readyCond = Except.ok true := by
  refine ⟨fun c => ?_, rfl⟩
  rw [ready_ok_true_iff]
  tauto

/-- Witness for C6: the spec's concrete ready record satisfies the
characterisation. -/
theorem is_ready_condition_characterisation_witness :
    UserDefinedNetwork.is_ready_condition readyCond = Except.ok true :=
  (is_ready_condition_characterisation.1 readyCond).mpr ⟨rfl, rfl, rfl⟩

/-- C7: `is_sync_error_condition` returns true exactly of records whose
type is "NetworkReady", whose status is "False" and whose reason is
"SyncError". -/
theorem is_sync_error_condition_characterisation :
    ∀ c : StatusCondition,
      UserDefinedNetwork.is_sync_error_condition c = Except.ok true ↔
        c.type = some "NetworkReady" ∧ c.status = some "False" ∧
          c.reason = some "SyncError" := by
  intro c
  rw [sync_ok_true_iff]
  tauto

/-- Witness for C7: the spec's concrete sync-error record classifies as a
sync error. -/
theorem is_sync_error_condition_characterisation_witness :
    UserDefinedNetwork.is_sync_error_condition syncErrorCond = Except.ok true :=
  (is_sync_error_condition_characterisation syncErrorCond).mpr ⟨rfl, rfl, rfl⟩

/-- C10: on any record, the two classifiers never both return true — a
record classified ready classifies as not sync-error and conversely, since
one comparison requires status "True" and the other status "False". -/
theorem ready_and_sync_error_mutually_exclusive (c : StatusCondition) :
    (UserDefinedNetwork.is_ready_condition c = Except.ok true →
      UserDefinedNetwork.is_sync_error_condition c = Except.ok false) ∧
    (UserDefinedNetwork.is_sync_error_condition c = Except.ok true →
      UserDefinedNetwork.is_ready_condition c = Except.ok false) := by
  constructor
  · intro h
    obtain ⟨hreason, hstatus, htype⟩ := (ready_ok_true_iff c).mp h
    simp [UserDefinedNetwork.is_sync_error_condition, condGet, hreason,
      UserDefinedNetwork.Status.Reason.SYNC_ERROR]
  · intro h
    obtain ⟨hreason, hstatus, htype⟩ := (sync_ok_true_iff c).mp h
    simp [UserDefinedNetwork.is_ready_condition, condGet, hreason,
      UserDefinedNetwork.Status.Reason.NETWORK_ATTACHMENT_DEFINITION_READY]

/-- Witness for C10: the concrete ready record classifies as not
sync-error. -/
theorem ready_and_sync_error_mutually_exclusive_witness :
    UserDefinedNetwork.is_sync_error_condition readyCond = Except.ok false :=
  (ready_and_sync_error_mutually_exclusive readyCond).1 rfl

/-- Counterexample to C4: the record with all four fields absent makes
both classifiers raise `KeyError` on the `reason` lookup instead of
returning a boolean. -/
theorem classifiers_raise_on_empty_record :
    UserDefinedNetwork.is_ready_condition ⟨none, none, none, none⟩ =
      Except.error (PyErr.keyError "reason") ∧
    UserDefinedNetwork.is_sync_error_condition ⟨none, none, none, none⟩ =
      Except.error (PyErr.keyError "reason") :=
  ⟨rfl, rfl⟩

/-- C4 amended: both classifiers return a boolean and raise no error on
every record whose type, status and reason fields are present; the message
field may be absent. (Records missing an accessed field raise a key
lookup error, so totality over arbitrary field subsets fails.) -/
theorem classifiers_total_on_present_fields (c : StatusCondition)
    (hr : c.reason.isSome = true) (hs : c.status.isSome = true)
    (ht : c.type.isSome = true) :
    (∃ b, UserDefinedNetwork.is_ready_condition c = Except.ok b) ∧
    (∃ b, UserDefinedNetwork.is_sync_error_condition c = Except.ok b) :=
  ⟨ready_total_of_present c hr hs ht, sync_total_of_present c hr hs ht⟩

/-- Witness for the amended C4: a record with type, status and reason
present but message absent is classified without error. -/
theorem classifiers_total_on_present_fields_witness :
    (∃ b, UserDefinedNetwork.is_ready_condition
      ⟨some "NetworkReady", some "True", some "NetworkAttachmentDefinitionReady", none⟩ =
        Except.ok b) ∧
    (∃ b, UserDefinedNetwork.is_sync_error_condition
      ⟨some "NetworkReady", some "True", some "NetworkAttachmentDefinitionReady", none⟩ =
        Except.ok b) :=
  classifiers_total_on_present_fields
    ⟨some "NetworkReady", some "True", some "NetworkAttachmentDefinitionReady", none⟩
    rfl rfl rfl

/-- Counterexample to C5: a base-class instance built from typed fields
with topology "Layer2" and no raw sub-document renders a spec holding only
the topology key, so none of the three variant keys is present. -/
theorem base_instance_renders_no_variant_key :
    UserDefinedNetwork.to_dict ⟨"udn-a", "ns1", some "Layer2", none, none, none, none⟩ [] =
      [("spec", Value.obj [("topology", Value.str "Layer2")])] ∧
    variantKeyCount
      (UserDefinedNetwork.to_dict ⟨"udn-a", "ns1", some "Layer2", none, none, none, none⟩ []) = 0 :=
  ⟨rfl, rfl⟩

/-- C5 amended: for every instance of one of the three typed topology
subclasses built from typed fields (not loaded from a manifest), the
rendered document carries exactly one of the keys layer2, layer3,
localNet under spec, namely the one matching the instance's topology
field. (The base class does not guarantee this: it copies whichever raw
sub-documents are set, independently of topology.) -/
theorem typed_subclasses_exactly_one_variant :
    (∀ (f : Layer2Fields) (r : List (String × Value)), f.yaml_file = none →
      variantKeyCount (Layer2UserDefinedNetwork.to_dict f r) = 1 ∧
      hasKey (specObj (Layer2UserDefinedNetwork.to_dict f r)) "layer2" = true ∧
      lookupKey (specObj (Layer2UserDefinedNetwork.to_dict f r)) "topology" =
        some (Value.str TopologyType.LAYER2)) ∧
    (∀ (f : Layer3Fields) (r : List (String × Value)), f.yaml_file = none →
      variantKeyCount (Layer3UserDefinedNetwork.to_dict f r) = 1 ∧
      hasKey (specObj (Layer3UserDefinedNetwork.to_dict f r)) "layer3" = true ∧
      lookupKey (specObj (Layer3UserDefinedNetwork.to_dict f r)) "topology" =
        some (Value.str TopologyType.LAYER3)) ∧
    (∀ (f : LocalNetFields) (r : List (String × Value)), f.yaml_file = none →
      variantKeyCount (LocalNetUserDefinedNetwork.to_dict f r) = 1 ∧
      hasKey (specObj (LocalNetUserDefinedNetwork.to_dict f r)) "localNet" = true ∧
      lookupKey (specObj (LocalNetUserDefinedNetwork.to_dict f r)) "topology" =
        some (Value.str TopologyType.LOCALNET)) := by
  refine ⟨fun f r hy => ?_, fun f r hy => ?_, fun f r hy => ?_⟩
  · simp [Layer2UserDefinedNetwork.to_dict, Layer2Fields.toBase, UserDefinedNetwork.to_dict,
      NamespacedResource.to_dict, insertIfPresent, dictInsert, setdefaultModify, Value.asObj,
      specObj, lookupKey, hasKey, variantKeyCount, TopologyType.LAYER2, hy]
  · simp [Layer3UserDefinedNetwork.to_dict, Layer3Fields.toBase, UserDefinedNetwork.to_dict,
      NamespacedResource.to_dict, insertIfPresent, dictInsert, setdefaultModify, Value.asObj,
      specObj, lookupKey, hasKey, variantKeyCount, TopologyType.LAYER3, hy]
  · simp [LocalNetUserDefinedNetwork.to_dict, LocalNetFields.toBase, UserDefinedNetwork.to_dict,
      NamespacedResource.to_dict, insertIfPresent, dictInsert, setdefaultModify, Value.asObj,
      specObj, lookupKey, hasKey, variantKeyCount, TopologyType.LOCALNET, hy]

/-- Witness for the amended C5: a typed Layer3 build with only a role set
renders exactly the layer3 variant key. -/
theorem typed_subclasses_exactly_one_variant_witness :
    variantKeyCount
      (Layer3UserDefinedNetwork.to_dict ⟨"udn-a", "ns1", some "Primary", none, none, none, none⟩ []) = 1 ∧
    hasKey (specObj
      (Layer3UserDefinedNetwork.to_dict ⟨"udn-a", "ns1", some "Primary", none, none, none, none⟩ []))
      "layer3" = true ∧
    lookupKey (specObj
      (Layer3UserDefinedNetwork.to_dict ⟨"udn-a", "ns1", some "Primary", none, none, none, none⟩ []))
      "topology" = some (Value.str TopologyType.LAYER3) :=
  typed_subclasses_exactly_one_variant.2.1 ⟨"udn-a", "ns1", some "Primary", none, none, none, none⟩
    [] rfl

/-- C8: the Layer3 omission law — each unset typed attribute leaves its
key out of the rendered layer3 mapping, the subnets key is present exactly
when the subnet sequence is set (and then holds one rendered pair per
entry, in order), each rendered pair omits cidr or hostSubnet when unset —
and the spec's concrete Layer3 build renders exactly the expected
document. -/
theorem layer3_omission_law :
    (∀ (f : Layer3Fields) (r : List (String × Value)), f.yaml_file = none →
      hasKey (variantObj (Layer3UserDefinedNetwork.to_dict f r) "layer3") "role" =
        f.role.isSome ∧
      hasKey (variantObj (Layer3UserDefinedNetwork.to_dict f r) "layer3") "mtu" =
        f.mtu.isSome ∧
      hasKey (variantObj (Layer3UserDefinedNetwork.to_dict f r) "layer3") "joinSubnets" =
        f.join_subnets.isSome ∧
      hasKey (variantObj (Layer3UserDefinedNetwork.to_dict f r) "layer3") "subnets" =
        f.subnets.isSome ∧
      (∀ l, f.subnets = some l →
        lookupKey (variantObj (Layer3UserDefinedNetwork.to_dict f r) "layer3") "subnets" =
          some (Value.arr (l.map layer3SubnetDict)))) ∧
    (∀ subnet : Layer3Subnets,
      hasKey (layer3SubnetDict subnet).asObj "cidr" = subnet.cidr.isSome ∧
      hasKey (layer3SubnetDict subnet).asObj "hostSubnet" = subnet.host_subnet.isSome) ∧
    Layer3UserDefinedNetwork.to_dict
        ⟨"udn-a", "ns1", some "Primary", some 1400, some [⟨some "10.0.0.0/16", some 24⟩],
          none, none⟩ [] =
      [("spec", Value.obj [("topology", Value.str "Layer3"),
        ("layer3", Value.obj [("role", Value.str "Primary"), ("mtu", Value.int 1400),
          ("subnets", Value.arr
            [Value.obj [("cidr", Value.str "10.0.0.0/16"), ("hostSubnet", Value.int 24)]])])])] := by
  refine ⟨fun f r hy => ?_, fun subnet => ?_, rfl⟩
  · obtain ⟨n, ns, role, mtu, subnets, js, yf⟩ := f
    cases hy
    cases role <;> cases mtu <;> cases js <;> cases subnets <;>
      simp [Layer3UserDefinedNetwork.to_dict, Layer3Fields.toBase, UserDefinedNetwork.to_dict,
        NamespacedResource.to_dict, insertIfPresent, dictInsert, setdefaultModify, Value.asObj,
        Value.asArr, variantObj, specObj, lookupKey, hasKey, TopologyType.LAYER3]
  · obtain ⟨c, h⟩ := subnet
    cases c <;> cases h <;>
      simp [layer3SubnetDict, insertIfPresent, dictInsert, hasKey, Value.asObj]

/-- Witness for C8: a Layer3 build with mtu and joinSubnets unset omits
exactly those keys and renders its single subnet pair. -/
theorem layer3_omission_law_witness :
    hasKey (variantObj (Layer3UserDefinedNetwork.to_dict
        ⟨"udn-a", "ns1", some "Primary", none, some [⟨some "10.0.0.0/16", none⟩], none, none⟩ [])
        "layer3") "role" = (some "Primary" : Option String).isSome ∧
    hasKey (variantObj (Layer3UserDefinedNetwork.to_dict
        ⟨"udn-a", "ns1", some "Primary", none, some [⟨some "10.0.0.0/16", none⟩], none, none⟩ [])
        "layer3") "mtu" = (none : Option Int).isSome ∧
    hasKey (variantObj (Layer3UserDefinedNetwork.to_dict
        ⟨"udn-a", "ns1", some "Primary", none, some [⟨some "10.0.0.0/16", none⟩], none, none⟩ [])
        "layer3") "joinSubnets" = (none : Option String).isSome ∧
    hasKey (variantObj (Layer3UserDefinedNetwork.to_dict
        ⟨"udn-a", "ns1", some "Primary", none, some [⟨some "10.0.0.0/16", none⟩], none, none⟩ [])
        "layer3") "subnets" = (some [(⟨some "10.0.0.0/16", none⟩ : Layer3Subnets)]).isSome ∧
    (∀ l, (some [(⟨some "10.0.0.0/16", none⟩ : Layer3Subnets)] :
        Option (List Layer3Subnets)) = some l →
      lookupKey (variantObj (Layer3UserDefinedNetwork.to_dict
        ⟨"udn-a", "ns1", some "Primary", none, some [⟨some "10.0.0.0/16", none⟩], none, none⟩ [])
        "layer3") "subnets" = some (Value.arr (l.map layer3SubnetDict))) :=
  layer3_omission_law.1
    ⟨"udn-a", "ns1", some "Primary", none, some [⟨some "10.0.0.0/16", none⟩], none, none⟩ [] rfl

/-- C9: rendering is idempotent for the base class and all three topology
variants — feeding a rendered document back through the builder yields the
same document, so a second call neither duplicates Layer3 subnet entries
nor accumulates any other state. -/
theorem to_dict_idempotent :
    (∀ (u : UserDefinedNetworkFields) (r : List (String × Value)),
      UserDefinedNetwork.to_dict u (UserDefinedNetwork.to_dict u r) =
        UserDefinedNetwork.to_dict u r) ∧
    (∀ (f : Layer2Fields) (r : List (String × Value)),
      Layer2UserDefinedNetwork.to_dict f (Layer2UserDefinedNetwork.to_dict f r) =
        Layer2UserDefinedNetwork.to_dict f r) ∧
    (∀ (f : Layer3Fields) (r : List (String × Value)),
      Layer3UserDefinedNetwork.to_dict f (Layer3UserDefinedNetwork.to_dict f r) =
        Layer3UserDefinedNetwork.to_dict f r) ∧
    (∀ (f : LocalNetFields) (r : List (String × Value)),
      LocalNetUserDefinedNetwork.to_dict f (LocalNetUserDefinedNetwork.to_dict f r) =
        LocalNetUserDefinedNetwork.to_dict f r) := by
  refine ⟨fun u r => ?_, fun f r => ?_, fun f r => ?_, fun f r => ?_⟩
  · cases hf : u.yaml_file <;>
      simp [UserDefinedNetwork.to_dict, NamespacedResource.to_dict, hf]
  · cases hf : f.yaml_file <;>
      simp [Layer2UserDefinedNetwork.to_dict, Layer2Fields.toBase, UserDefinedNetwork.to_dict,
        NamespacedResource.to_dict, hf]
  · cases hf : f.yaml_file <;>
      simp [Layer3UserDefinedNetwork.to_dict, Layer3Fields.toBase, UserDefinedNetwork.to_dict,
        NamespacedResource.to_dict, hf]
  · cases hf : f.yaml_file <;>
      simp [LocalNetUserDefinedNetwork.to_dict, LocalNetFields.toBase, UserDefinedNetwork.to_dict,
        NamespacedResource.to_dict, hf]
